import Mathlib

/-!
Shallow embedding of the club-sphere server (src/index.js): the document
data model, Mongo-like collection operations (findOne / insertOne /
updateOne / deleteOne on lists in insertion order), and the request
handlers that the claims concern, each translated from the cited lines
of src/index.js.  The Stripe gateway lookup
`stripe.checkout.sessions.retrieve` is modeled by a function argument
`retrieve : String → Session`; `Date.now()` by a `now : Nat` argument;
Mongo ObjectId strings are modeled as the id strings themselves (the
invalid-ObjectId-format branches of the handlers are not modeled).
-/

namespace ClubSphere

/-- JS `String.prototype.toLowerCase()` for the strings the handlers
compare, stated by structural recursion over the characters so that proofs
can evaluate it. -/
def toLowerCase (s : String) : String :=
  ⟨s.data.map Char.toLower⟩

/-- JS `Number(x || d)` for an optional natural-number field: `0`,
like a missing field, is falsy and falls back to the default. -/
def jsNumOr (v : Option Nat) (d : Nat) : Nat :=
  match v with
  | none => d
  | some 0 => d
  | some n => n

/-- JS `x || d` for an optional integer field (`0` is falsy). -/
def jsIntOr (v : Option Int) (d : Int) : Int :=
  match v with
  | none => d
  | some i => if i = 0 then d else i

/-- JS truthiness of an optional string (`undefined` and `''` are falsy). -/
def truthyStr (v : Option String) : Bool :=
  !(v.getD "" == "")

/-- JS truthiness of an optional number (`undefined` and `0` are falsy). -/
def truthyNum (v : Option Int) : Bool :=
  !(v.getD 0 == 0)

/-- `generateTrackingId` (src/index.js:31-33); `Date.now()` is the `now`
argument, the prefix always takes its default `"TRK"` at the call sites. -/
def generateTrackingId (now : Nat) (p : String := "TRK") : String :=
  p ++ "-" ++ toString now

/-- Club document, as created by POST /clubs (src/index.js:230-236) and
mutated by the payment-success and admin endpoints. -/
structure Club where
  _id : String
  clubName : String
  createremail : String
  status : String
  clubpayment : String
  paymentStatus : String
  trackingid : Option String
  membernumber : String
deriving DecidableEq, Repr

/-- Payment ledger document, as inserted by the payment-success handlers
(src/index.js:335-345 and 653-664). -/
structure Payment where
  amount : Rat
  currency : String
  customeremail : String
  userid : String
  clubname : Option String
  transactionid : String
  paymentstatus : String
  paidAt : Nat
  type : Option String
deriving DecidableEq, Repr

/-- Event document (created at src/index.js:153-158, read by the
registration and event-payment handlers). -/
structure EventDoc where
  _id : String
  clubId : String
  clubName : Option String
  title : Option String
  eventType : Option String
  price : Option Int
  attendees : Option Nat
  maxAttendees : Option Nat
  createrEmail : String
  status : String
deriving DecidableEq, Repr

/-- Event-registration document, as inserted by /event-payment-success
(src/index.js:479-490) and /event-register-free (src/index.js:561-568). -/
structure EventRegister where
  eventId : String
  email : String
  paymentStatus : Option String
  transactionId : Option String
  amount : Option Rat
  currency : Option String
  paidAt : Option Nat
  registeredAt : Nat
  eventTitle : Option String
  clubName : Option String
deriving DecidableEq, Repr

/-- User document (src/index.js:164-175). -/
structure UserDoc where
  email : String
  role : Option String
  createdAt : Option Nat
deriving DecidableEq, Repr

/-- The metadata map a checkout session carries (the union of the fields
set at src/index.js:270-273, 412-418 and 610-614); absent keys are `none`. -/
structure Metadata where
  clubId : Option String
  clubName : Option String
  eventId : Option String
  email : Option String
  type : Option String
  title : Option String
deriving DecidableEq, Repr

/-- A gateway checkout session as returned by
`stripe.checkout.sessions.retrieve`; `customer_email` models
`session.customer_details?.email`. -/
structure Session where
  payment_status : String
  payment_intent : String
  amount_total : Nat
  currency : String
  customer_email : Option String
  metadata : Metadata
deriving DecidableEq, Repr

/-- The five collections of the `slubsphere` database (src/index.js:69-74),
each a list in insertion order. -/
structure DB where
  clubs : List Club
  payments : List Payment
  users : List UserDoc
  events : List EventDoc
  eventRegisters : List EventRegister
deriving DecidableEq, Repr

/-- `collection.findOne(filter)`: the first stored document matching. -/
def findOne {α : Type} (p : α → Bool) (l : List α) : Option α :=
  l.find? p

/-- `collection.insertOne(doc)`: append to the collection. -/
def insertOne {α : Type} (x : α) (l : List α) : List α :=
  l ++ [x]

/-- `collection.updateOne(filter, update)`: rewrite the first matching
document, leave the rest alone. -/
def updateOne {α : Type} (p : α → Bool) (f : α → α) : List α → List α
  | [] => []
  | x :: xs => if p x then f x :: xs else x :: updateOne p f xs

/-- `collection.deleteOne(filter)`: remove the first matching document;
the first component is the reported `deletedCount`. -/
def deleteOne {α : Type} (p : α → Bool) : List α → Nat × List α
  | [] => (0, [])
  | x :: xs =>
    if p x then (1, xs)
    else
      let r := deleteOne p xs
      (r.1, x :: r.2)

/-- An HTTP response as the handlers build them: status code plus the
JSON-body fields the handlers use (`success`, `error`, `message`,
`paymentinfo`); fields a handler does not set are `none` / `false`. -/
structure HttpResp where
  status : Nat
  success : Bool
  error : Option String
  message : Option String
  paymentinfo : Option Payment
deriving DecidableEq, Repr

/-- `res.status(code).send({error})` / `res.status(code).json({error})`. -/
def errResp (code : Nat) (e : String) : HttpResp :=
  ⟨code, false, some e, none, none⟩

/-- `res.send({message})` with no success flag (HTTP 200). -/
def okMsg (m : String) : HttpResp :=
  ⟨200, false, none, some m, none⟩

/-- PATCH /payment-success (src/index.js:316-347): legacy club payment
confirmation, with the idempotency lookup on `transactionid`.  The handler
reads `session.metadata.clubId` without a presence check; a missing key is
modeled as the empty string. -/
def paymentSuccess (sessionId : Option String) (retrieve : String → Session)
    (now : Nat) (db : DB) : HttpResp × DB :=
  match sessionId with
  | none => (errResp 400 "session_id missing", db)
  | some sid =>
    let session := retrieve sid
    if session.payment_status ≠ "paid" then
      (errResp 400 "Payment not completed", db)
    else
      let clubId := session.metadata.clubId.getD ""
      let transactionId := session.payment_intent
      match findOne (fun q => q.transactionid == transactionId) db.payments with
      | some existingPayment => (⟨200, true, none, none, some existingPayment⟩, db)
      | none =>
        let clubs := updateOne (fun c => c._id == clubId)
          (fun c => { c with paymentStatus := "paid",
                             trackingid := some (generateTrackingId now) }) db.clubs
        let payment : Payment :=
          { amount := (session.amount_total : Rat) / 100
            currency := session.currency
            customeremail := session.customer_email.getD ""
            userid := clubId
            clubname := session.metadata.clubName
            transactionid := transactionId
            paymentstatus := session.payment_status
            paidAt := now
            type := none }
        (⟨200, true, none, none, some payment⟩,
         { db with clubs := clubs, payments := insertOne payment db.payments })

/-- PATCH /club-payment-success (src/index.js:627-670): the club payment
confirmation route.  Note it performs no lookup of an existing Payment
Record and no check of the club's current `paymentStatus` before writing. -/
def clubPaymentSuccess (sessionId : Option String) (retrieve : String → Session)
    (now : Nat) (db : DB) : HttpResp × DB :=
  match sessionId with
  | none => (errResp 400 "session_id missing", db)
  | some sid =>
    let session := retrieve sid
    if session.payment_status ≠ "paid" then
      (errResp 400 "Payment not completed", db)
    else
      if !(truthyStr session.metadata.clubId) then
        (errResp 400 "clubId missing in metadata", db)
      else
        let clubId := session.metadata.clubId.getD ""
        let clubs := updateOne (fun c => c._id == clubId)
          (fun c => { c with clubpayment := "paid", paymentStatus := "paid",
                             trackingid := some (generateTrackingId now) }) db.clubs
        let payment : Payment :=
          { amount := (session.amount_total : Rat) / 100
            currency := session.currency
            customeremail := session.customer_email.getD ""
            userid := clubId
            clubname := session.metadata.clubName
            transactionid := session.payment_intent
            paymentstatus := session.payment_status
            paidAt := now
            type := some "club_membership" }
        (⟨200, true, none, none, none⟩,
         { db with clubs := clubs, payments := insertOne payment db.payments })

/-- PATCH /event-payment-success (src/index.js:431-513); runs behind
`verifyFBToken`, `decodedEmail` is the verified identity. -/
def eventPaymentSuccess (decodedEmail : String) (sessionId : Option String)
    (retrieve : String → Session) (now : Nat) (db : DB) : HttpResp × DB :=
  match sessionId with
  | none => (errResp 400 "session_id is required", db)
  | some sid =>
    let session := retrieve sid
    if session.payment_status ≠ "paid" then
      (errResp 400 "Payment not completed", db)
    else
      if !(session.metadata.type == some "event_registration")
          || !(truthyStr session.metadata.eventId)
          || !(truthyStr session.metadata.email) then
        (errResp 400 "Invalid session metadata", db)
      else
        let eventId := session.metadata.eventId.getD ""
        let email := session.metadata.email.getD ""
        if !(email == decodedEmail) then
          (errResp 403 "Unauthorized", db)
        else
          match findOne (fun r => r.eventId == eventId && r.email == email)
              db.eventRegisters with
          | some _ => (⟨200, true, none, some "Already registered", none⟩, db)
          | none =>
            let reg : EventRegister :=
              { eventId := eventId
                email := email
                paymentStatus := some "paid"
                transactionId := some session.payment_intent
                amount := some ((session.amount_total : Rat) / 100)
                currency := some session.currency
                paidAt := some now
                registeredAt := now
                eventTitle := session.metadata.title
                clubName := session.metadata.clubName }
            let events := updateOne (fun e => e._id == eventId)
              (fun e => { e with attendees := some (e.attendees.getD 0 + 1) }) db.events
            (⟨200, true, none, none, none⟩,
             { db with eventRegisters := insertOne reg db.eventRegisters,
                       events := events })

/-- POST /event-register-free (src/index.js:517-585); runs behind
`verifyFBToken`, `decodedEmail` is the verified identity; `eventId?` is the
`eventId` field of the request body. -/
def eventRegisterFree (decodedEmail : String) (eventId? : Option String)
    (now : Nat) (db : DB) : HttpResp × DB :=
  if !(truthyStr eventId?) then
    (errResp 400 "eventId is required", db)
  else
    let eventId := eventId?.getD ""
    match findOne (fun e => e._id == eventId) db.events with
    | none => (errResp 404 "Event not found", db)
    | some event =>
      if !(event.eventType.map toLowerCase == some "free") then
        (errResp 400 "This is not a free event", db)
      else
        match findOne (fun r => r.eventId == eventId && r.email == decodedEmail)
            db.eventRegisters with
        | some _ => (errResp 400 "You are already registered", db)
        | none =>
          let currentAttendees := jsNumOr event.attendees 0
          let maxAtt := jsNumOr event.maxAttendees 999999
          if currentAttendees ≥ maxAtt then
            (errResp 400 "Event is already full", db)
          else
            let reg : EventRegister :=
              { eventId := eventId
                email := decodedEmail
                paymentStatus := some "free"
                transactionId := none
                amount := none
                currency := none
                paidAt := none
                registeredAt := now
                eventTitle := some (event.title.getD "")
                clubName := some (event.clubName.getD "") }
            let events := updateOne (fun e => e._id == eventId)
              (fun e => { e with attendees := some (e.attendees.getD 0 + 1) }) db.events
            (⟨200, true, none, some "Successfully registered for free event", none⟩,
             { db with eventRegisters := insertOne reg db.eventRegisters,
                       events := events })

/-- DELETE /clubs/:id (src/index.js:673-699); runs behind `verifyFBToken`. -/
def deleteClub (decodedEmail : String) (id : String) (db : DB) : HttpResp × DB :=
  match findOne (fun c => c._id == id) db.clubs with
  | none => (errResp 404 "Club not found", db)
  | some club =>
    if club.createremail ≠ decodedEmail then
      (errResp 403 "You can only delete your own clubs", db)
    else
      let r := deleteOne (fun c => c._id == id) db.clubs
      if r.1 == 0 then
        (errResp 500 "Failed to delete club", db)
      else
        (⟨200, true, none, some "Club deleted successfully", none⟩,
         { db with clubs := r.2 })

/-- The fields of a POST /users request body the handler uses. -/
structure UserBody where
  email : String
  role : Option String
deriving DecidableEq, Repr

/-- POST /users (src/index.js:164-175): duplicate-email check, then insert
with the role forced to `'user'` whatever the body carried. -/
def postUsers (body : UserBody) (now : Nat) (db : DB) : HttpResp × DB :=
  match findOne (fun u => u.email == body.email) db.users with
  | some _ => (okMsg "user already exists", db)
  | none =>
    let user : UserDoc := { email := body.email, role := some "user", createdAt := some now }
    (⟨200, true, none, none, none⟩, { db with users := insertOne user db.users })

/-- Outcome of a checkout-session creation handler: either rejected before
the gateway is contacted, or a gateway session is requested with the given
`unit_amount` in minor units.  Neither handler writes to the database. -/
inductive CheckoutOutcome where
  | rejected (status : Nat) (error : String)
  | requested (unit_amount : Int)
deriving DecidableEq, Repr

/-- POST /create-club-checkout-session (src/index.js:588-624);
`membershipFee` is the numeric fee field of the body (absent = `none`),
`id?` the `_id` field. -/
def createClubCheckoutSession (membershipFee : Option Int) (id? : Option String) :
    CheckoutOutcome :=
  if !(truthyNum membershipFee) || !(truthyStr id?) then
    .rejected 400 "Membership fee or club ID missing"
  else
    .requested (membershipFee.getD 0 * 100)

/-- POST /create-event-payment (src/index.js:349-428); runs behind
`verifyFBToken`. -/
def createEventPayment (decodedEmail : String) (eventId? email? : Option String)
    (db : DB) : CheckoutOutcome :=
  if !(truthyStr eventId?) || !(truthyStr email?) then
    .rejected 400 "eventId and email are required"
  else
    let eventId := eventId?.getD ""
    let email := email?.getD ""
    if email ≠ decodedEmail then
      .rejected 403 "Unauthorized: email mismatch"
    else
      match findOne (fun r => r.eventId == eventId && r.email == email)
          db.eventRegisters with
      | some _ => .rejected 400 "You are already registered"
      | none =>
        match findOne (fun e => e._id == eventId) db.events with
        | none => .rejected 404 "Event not found"
        | some event =>
          if event.eventType.map toLowerCase == some "free" then
            .rejected 400 "Free event — no payment needed"
          else
            let amountInCents := jsIntOr event.price 0 * 100
            if amountInCents ≤ 0 then
              .rejected 400 "Invalid event price"
            else
              .requested amountInCents

/-! ### Collection-operation lemmas -/

/-- `updateOne` with a filter no document matches leaves the collection
unchanged. -/
theorem updateOne_of_find?_none {α : Type} (p : α → Bool) (f : α → α) (l : List α)
    (h : l.find? p = none) : updateOne p f l = l := by
  induction l with
  | nil => rfl
  | cons x xs ih =>
    by_cases hx : p x
    · rw [List.find?_cons_of_pos _ hx] at h
      exact absurd h (by simp)
    · rw [List.find?_cons_of_neg _ hx] at h
      simp [updateOne, hx, ih h]

/-- `findOne` after `updateOne`, when the update preserves the filter:
it returns the updated version of what `findOne` returned before. -/
theorem find?_updateOne {α : Type} (p : α → Bool) (f : α → α) (l : List α)
    (hp : ∀ x, p (f x) = p x) :
    (updateOne p f l).find? p = (l.find? p).map f := by
  induction l with
  | nil => rfl
  | cons x xs ih =>
    by_cases hx : p x
    · have hfx : p (f x) := by rw [hp]; exact hx
      simp [updateOne, hx, List.find?_cons_of_pos _ hfx, List.find?_cons_of_pos _ hx]
    · simp [updateOne, hx, List.find?_cons_of_neg _ hx, ih]

/-- A successful `deleteOne` (the filter matched something) reports
`deletedCount = 1`. -/
theorem deleteOne_fst_of_find? {α : Type} (p : α → Bool) (l : List α) (a : α)
    (h : l.find? p = some a) : (deleteOne p l).1 = 1 := by
  induction l with
  | nil => simp [List.find?] at h
  | cons x xs ih =>
    by_cases hx : p x
    · simp [deleteOne, hx]
    · rw [List.find?_cons_of_neg _ hx] at h
      simp [deleteOne, hx, ih h]

/-- After `deleteOne`, if the collection held at most one matching
document, no matching document is left. -/
theorem find?_deleteOne_none {α : Type} (p : α → Bool) (l : List α)
    (h : l.countP p ≤ 1) : (deleteOne p l).2.find? p = none := by
  induction l with
  | nil => simp [deleteOne]
  | cons x xs ih =>
    by_cases hx : p x
    · have h0 : xs.countP p = 0 := by
        rw [List.countP_cons, if_pos hx] at h; omega
      simp only [deleteOne, hx, if_pos]
      rw [List.find?_eq_none]
      intro y hy
      simpa using List.countP_eq_zero.mp h0 y hy
    · have h' : xs.countP p ≤ 1 := by
        rw [List.countP_cons, if_neg hx] at h; omega
      simp [deleteOne, hx, ih h']

/-! ### Concrete fixtures used by counterexamples and witnesses -/

/-- A freshly created, unpaid club. -/
def club1 : Club :=
  { _id := "c1", clubName := "Chess Club", createremail := "a@x.com",
    status := "pending", clubpayment := "pay", paymentStatus := "pending",
    trackingid := none, membernumber := "0" }

/-- A club whose membership payment is already confirmed. -/
def club2paid : Club :=
  { club1 with
      _id := "c2"
      clubpayment := "paid"
      paymentStatus := "paid"
      trackingid := some "TRK-1" }

/-- A paid checkout session for club `c1`. -/
def sessClubPaid : Session :=
  { payment_status := "paid", payment_intent := "pi_1", amount_total := 500,
    currency := "usd", customer_email := some "a@x.com",
    metadata := { clubId := some "c1", clubName := some "Chess Club",
                  eventId := none, email := none,
                  type := some "club_membership", title := none } }

/-- The same kind of session, unpaid. -/
def sessUnpaid : Session :=
  { sessClubPaid with payment_status := "unpaid" }

/-- A second paid session, for the already-paid club `c2`. -/
def sessClub2Paid : Session :=
  { sessClubPaid with
      payment_intent := "pi_2"
      metadata := { sessClubPaid.metadata with clubId := some "c2" } }

/-- A paid event-registration session for event `e1` and payer `b@x.com`. -/
def sessEventPaid : Session :=
  { payment_status := "paid", payment_intent := "pi_e1", amount_total := 1500,
    currency := "usd", customer_email := some "b@x.com",
    metadata := { clubId := none, clubName := some "Chess Club",
                  eventId := some "e1", email := some "b@x.com",
                  type := some "event_registration", title := some "Open Day" } }

/-- A free event with room left. -/
def eventFree : EventDoc :=
  { _id := "e1", clubId := "c1", clubName := some "Chess Club",
    title := some "Open Day", eventType := some "Free", price := none,
    attendees := some 1, maxAttendees := some 10,
    createrEmail := "a@x.com", status := "upcoming" }

/-- A free event declared with `maxAttendees = 0`. -/
def eventCapZero : EventDoc :=
  { eventFree with
      _id := "e0"
      attendees := some 0
      maxAttendees := some 0 }

/-- A free event that is exactly at capacity. -/
def eventFull : EventDoc :=
  { eventFree with
      _id := "ef"
      attendees := some 2
      maxAttendees := some 2 }

/-- A paid event whose price is zero. -/
def eventPaidZero : EventDoc :=
  { eventFree with
      _id := "ep"
      eventType := some "Paid"
      price := some 0 }

/-- An existing free registration of `b@x.com` for event `e1`. -/
def regB : EventRegister :=
  { eventId := "e1", email := "b@x.com", paymentStatus := some "free",
    transactionId := none, amount := none, currency := none, paidAt := none,
    registeredAt := 3, eventTitle := some "Open Day", clubName := some "Chess Club" }

/-- An empty database. -/
def dbEmpty : DB := ⟨[], [], [], [], []⟩

/-- A database holding just the unpaid club `c1`. -/
def db0 : DB := ⟨[club1], [], [], [], []⟩

/-- A database holding just the already-paid club `c2`. -/
def db2 : DB := ⟨[club2paid], [], [], [], []⟩

/-- A database where `b@x.com` is already registered for free event `e1`. -/
def dbReg : DB := ⟨[], [], [], [eventFree], [regB]⟩

/-- A database holding the `maxAttendees = 0` event. -/
def dbCap : DB := ⟨[], [], [], [eventCapZero], []⟩

/-- A database holding the at-capacity event. -/
def dbFull : DB := ⟨[], [], [], [eventFull], []⟩

/-- A database holding the zero-price paid event. -/
def dbPaidZero : DB := ⟨[], [], [], [eventPaidZero], []⟩

/-- A database holding one user document. -/
def dbUser : DB :=
  ⟨[], [], [{ email := "u@x.com", role := some "user", createdAt := some 5 }], [], []⟩

/-! ### Claims -/

/-- Claim C1 (the code violates it): PATCH /club-payment-success performs no
idempotency lookup, so confirming the same paid checkout session twice
inserts two Payment Records carrying the same transaction reference instead
of finding and returning the existing one. -/
theorem clubPaymentSuccess_double_confirm_duplicates_payment :
    ((clubPaymentSuccess (some "s") (fun _ => sessClubPaid) 1
        (clubPaymentSuccess (some "s") (fun _ => sessClubPaid) 1 db0).2).2.payments.countP
      (fun q => q.transactionid == "pi_1")) = 2 := by decide

/-- Claim C2 (the code violates it): confirming a paid session for a club
that is already in `paymentStatus = "paid"` re-applies the club update and
overwrites the tracking code (`TRK-1` becomes `TRK-9`), because the update
predicate of /club-payment-success matches on `_id` alone and the handler
has no idempotency guard. -/
theorem clubPaymentSuccess_reassigns_trackingid_when_already_paid :
    club2paid.paymentStatus = "paid"
    ∧ club2paid.trackingid = some "TRK-1"
    ∧ (findOne (fun c => c._id == "c2")
        (clubPaymentSuccess (some "s") (fun _ => sessClub2Paid) 9 db2).2.clubs).map
          Club.trackingid = some (some "TRK-9") := by decide

/-- Claim C3: whenever the gateway reports the session's payment status as
anything other than `"paid"`, each of the three confirmation handlers
returns the 400 "Payment not completed" error and leaves the whole database
untouched. -/
theorem unpaid_session_rejected_without_writes
    (sid : String) (retrieve : String → Session) (now : Nat) (db : DB)
    (decodedEmail : String) (h : (retrieve sid).payment_status ≠ "paid") :
    paymentSuccess (some sid) retrieve now db
      = (errResp 400 "Payment not completed", db)
    ∧ eventPaymentSuccess decodedEmail (some sid) retrieve now db
      = (errResp 400 "Payment not completed", db)
    ∧ clubPaymentSuccess (some sid) retrieve now db
      = (errResp 400 "Payment not completed", db) := by
  refine ⟨?_, ?_, ?_⟩ <;>
    simp [paymentSuccess, eventPaymentSuccess, clubPaymentSuccess, h]

/-- Witness for C3 at a concrete unpaid session and database. -/
theorem unpaid_session_rejected_without_writes_witness :
    sessUnpaid.payment_status ≠ "paid"
    ∧ (paymentSuccess (some "s") (fun _ => sessUnpaid) 0 db0
        = (errResp 400 "Payment not completed", db0)
      ∧ eventPaymentSuccess "a@x.com" (some "s") (fun _ => sessUnpaid) 0 db0
        = (errResp 400 "Payment not completed", db0)
      ∧ clubPaymentSuccess (some "s") (fun _ => sessUnpaid) 0 db0
        = (errResp 400 "Payment not completed", db0)) :=
  ⟨by decide,
   unpaid_session_rejected_without_writes "s" (fun _ => sessUnpaid) 0 db0
     "a@x.com" (by decide)⟩

/-- Claim C5 counterexample: for a free event declared with
`maxAttendees = 0` the claim's (N+1)-th attempt — here the very first —
does not fail with Full: `Number(event.maxAttendees || 999999)` treats the
falsy `0` as "no limit", so the registration succeeds and is inserted. -/
theorem capacity_zero_registration_succeeds :
    (eventRegisterFree "b@x.com" (some "e0") 7 dbCap).1.success = true
    ∧ (eventRegisterFree "b@x.com" (some "e0") 7 dbCap).1
        ≠ errResp 400 "Event is already full"
    ∧ (eventRegisterFree "b@x.com" (some "e0") 7 dbCap).2.eventRegisters.length = 1 := by
  decide

/-- Claim C5 (amended): for a free event with `maxAttendees = N` where
`N ≥ 1`, once the attendee count has reached `N` every further
free-registration attempt by a not-yet-registered caller fails with the
Full error and leaves the database unchanged. -/
theorem free_event_full_rejected
    (db : DB) (event : EventDoc) (email : String) (now cap : Nat)
    (hid : event._id ≠ "")
    (hfind : findOne (fun e => e._id == event._id) db.events = some event)
    (hfree : event.eventType.map toLowerCase = some "free")
    (hreg : findOne (fun r => r.eventId == event._id && r.email == email)
        db.eventRegisters = none)
    (hmax : event.maxAttendees = some cap) (hpos : 0 < cap)
    (hfull : cap ≤ jsNumOr event.attendees 0) :
    eventRegisterFree email (some event._id) now db
      = (errResp 400 "Event is already full", db) := by
  have hm : jsNumOr event.maxAttendees 999999 = cap := by
    rw [hmax]
    match cap, hpos with
    | Nat.succ n, _ => rfl
  simp [eventRegisterFree, truthyStr, hid, hfind, hfree, hreg, hm, hfull]

/-- Witness for the amended C5 at a concrete at-capacity event. -/
theorem free_event_full_rejected_witness :
    eventRegisterFree "c@x.com" (some "ef") 8 dbFull
      = (errResp 400 "Event is already full", dbFull) :=
  free_event_full_rejected dbFull eventFull "c@x.com" 8 2
    (by decide) (by decide) (by decide) (by decide) (by decide) (by decide)
    (by decide)

/-- Claim C6 counterexample: a negative membership fee is JS-truthy, so
POST /create-club-checkout-session does not reject it — it requests a
gateway session with a negative unit amount. -/
theorem negative_fee_checkout_requested :
    createClubCheckoutSession (some (-5)) (some "c1")
      = CheckoutOutcome.requested (-500) := by decide

/-- Claim C6 (amended): a missing or zero membership fee is rejected with a
validation error before any gateway session is requested on the club path,
and a zero-or-negative event price is rejected on the event path; but a
negative club membership fee is not caught (see the counterexample). -/
theorem checkout_fee_validation
    (membershipFee? : Option Int) (id? : Option String)
    (decodedEmail eventId : String) (db : DB) (event : EventDoc) :
    (membershipFee? = none ∨ membershipFee? = some 0 →
      createClubCheckoutSession membershipFee? id?
        = .rejected 400 "Membership fee or club ID missing")
    ∧ (eventId ≠ "" → decodedEmail ≠ "" →
        findOne (fun r => r.eventId == eventId && r.email == decodedEmail)
            db.eventRegisters = none →
        findOne (fun e => e._id == eventId) db.events = some event →
        (event.eventType.map toLowerCase == some "free") = false →
        jsIntOr event.price 0 ≤ 0 →
        createEventPayment decodedEmail (some eventId) (some decodedEmail) db
          = .rejected 400 "Invalid event price") := by
  constructor
  · intro h
    rcases h with h | h <;> simp [createClubCheckoutSession, truthyNum, h]
  · intro hid hde hreg hfind hnotfree hprice
    have hcents : jsIntOr event.price 0 * 100 ≤ 0 := by nlinarith
    simp [createEventPayment, truthyStr, hid, hde, hreg, hfind, hnotfree, hcents]

/-- Witness for the amended C6: missing fee rejected on the club path, and
a zero-price paid event rejected on the event path. -/
theorem checkout_fee_validation_witness :
    createClubCheckoutSession none (some "c1")
      = .rejected 400 "Membership fee or club ID missing"
    ∧ createEventPayment "b@x.com" (some "ep") (some "b@x.com") dbPaidZero
      = .rejected 400 "Invalid event price" :=
  ⟨(checkout_fee_validation none (some "c1") "b@x.com" "ep" dbPaidZero
      eventPaidZero).1 (Or.inl rfl),
   (checkout_fee_validation none (some "c1") "b@x.com" "ep" dbPaidZero
      eventPaidZero).2 (by decide) (by decide) (by decide) (by decide)
      (by decide) (by decide)⟩

/-- Claim C8: in PATCH /event-payment-success, once the session is paid and
its metadata is valid, a verified identity different from the payer email
in the metadata yields the 403 response and no database change. -/
theorem eventPaymentSuccess_email_mismatch_forbidden
    (decodedEmail sid : String) (retrieve : String → Session) (now : Nat) (db : DB)
    (hpaid : (retrieve sid).payment_status = "paid")
    (htype : (retrieve sid).metadata.type = some "event_registration")
    (hev : truthyStr (retrieve sid).metadata.eventId = true)
    (hem : truthyStr (retrieve sid).metadata.email = true)
    (hne : (retrieve sid).metadata.email.getD "" ≠ decodedEmail) :
    eventPaymentSuccess decodedEmail (some sid) retrieve now db
      = (errResp 403 "Unauthorized", db) := by
  simp [eventPaymentSuccess, hpaid, htype, hev, hem, hne]

/-- Witness for C8 at a concrete paid event session and mismatching
identity. -/
theorem eventPaymentSuccess_email_mismatch_forbidden_witness :
    eventPaymentSuccess "evil@x.com" (some "s") (fun _ => sessEventPaid) 0 dbReg
      = (errResp 403 "Unauthorized", dbReg) :=
  eventPaymentSuccess_email_mismatch_forbidden "evil@x.com" "s"
    (fun _ => sessEventPaid) 0 dbReg (by decide) (by decide) (by decide)
    (by decide) (by decide)

/-- Claim C9: POST /users stores every newly created user with role
`'user'` no matter what role the body supplied, and a duplicate email
inserts nothing, answering "user already exists". -/
theorem postUsers_role_forced_and_duplicate_noop
    (body : UserBody) (now : Nat) (db : DB) :
    (findOne (fun u => u.email == body.email) db.users = none →
      postUsers body now db
        = (⟨200, true, none, none, none⟩,
           { db with users := db.users ++
               [{ email := body.email, role := some "user", createdAt := some now }] }))
    ∧ (∀ ex, findOne (fun u => u.email == body.email) db.users = some ex →
        postUsers body now db = (okMsg "user already exists", db)) := by
  constructor
  · intro h
    simp [postUsers, h, insertOne]
  · intro ex h
    simp [postUsers, h]

/-- Witness for C9: creating a user whose body claims role `admin` stores
role `user`; posting the same email again changes nothing. -/
theorem postUsers_role_forced_and_duplicate_noop_witness :
    postUsers ⟨"u@x.com", some "admin"⟩ 5 dbEmpty
      = (⟨200, true, none, none, none⟩,
         { dbEmpty with users := [{ email := "u@x.com", role := some "user",
                                    createdAt := some 5 }] })
    ∧ postUsers ⟨"u@x.com", some "admin"⟩ 6 dbUser
      = (okMsg "user already exists", dbUser) :=
  ⟨by
      have := (postUsers_role_forced_and_duplicate_noop
        ⟨"u@x.com", some "admin"⟩ 5 dbEmpty).1 (by decide)
      simpa [dbEmpty] using this,
   (postUsers_role_forced_and_duplicate_noop ⟨"u@x.com", some "admin"⟩ 6 dbUser).2
     { email := "u@x.com", role := some "user", createdAt := some 5 } (by decide)⟩

/-- Claim C10: PATCH /club-payment-success inserts the Payment Record even
when no club document matches the `clubId` carried in the session metadata:
the club update matches nothing, the club collection is unchanged, yet the
confirmation succeeds and a ledger entry referencing the nonexistent club
is appended. -/
theorem clubPaymentSuccess_inserts_payment_without_club
    (sid : String) (retrieve : String → Session) (now : Nat) (db : DB) (clubId : String)
    (hpaid : (retrieve sid).payment_status = "paid")
    (hcid : (retrieve sid).metadata.clubId = some clubId)
    (hne : clubId ≠ "")
    (hnoclub : findOne (fun c => c._id == clubId) db.clubs = none) :
    (clubPaymentSuccess (some sid) retrieve now db).1
      = ⟨200, true, none, none, none⟩
    ∧ (clubPaymentSuccess (some sid) retrieve now db).2.clubs = db.clubs
    ∧ findOne (fun c => c._id == clubId)
        (clubPaymentSuccess (some sid) retrieve now db).2.clubs = none
    ∧ (clubPaymentSuccess (some sid) retrieve now db).2.payments.map Payment.userid
        = db.payments.map Payment.userid ++ [clubId] := by
  have hup : updateOne (fun c => c._id == clubId)
      (fun c => { c with clubpayment := "paid", paymentStatus := "paid",
                         trackingid := some (generateTrackingId now) }) db.clubs
      = db.clubs :=
    updateOne_of_find?_none _ _ _ hnoclub
  simp [clubPaymentSuccess, hpaid, hcid, truthyStr, hne, hup, hnoclub,
    insertOne, findOne]
  intro x hx
  simpa using List.find?_eq_none.mp hnoclub x hx

/-- Witness for C10: confirming a paid club session against an empty
database still appends the ledger entry. -/
theorem clubPaymentSuccess_inserts_payment_without_club_witness :
    (clubPaymentSuccess (some "s") (fun _ => sessClubPaid) 1 dbEmpty).1
      = ⟨200, true, none, none, none⟩
    ∧ (clubPaymentSuccess (some "s") (fun _ => sessClubPaid) 1 dbEmpty).2.clubs
      = dbEmpty.clubs
    ∧ findOne (fun c => c._id == "c1")
        (clubPaymentSuccess (some "s") (fun _ => sessClubPaid) 1 dbEmpty).2.clubs = none
    ∧ (clubPaymentSuccess (some "s") (fun _ => sessClubPaid) 1 dbEmpty).2.payments.map
        Payment.userid = dbEmpty.payments.map Payment.userid ++ ["c1"] :=
  clubPaymentSuccess_inserts_payment_without_club "s" (fun _ => sessClubPaid) 1
    dbEmpty "c1" (by decide) (by decide) (by decide) (by decide)

/-- Claim C4 counterexample: a second free registration by an
already-registered (event, email) pair is answered with HTTP 400 and an
error body (`'You are already registered'`), not with an informational
success — `errResp` carries `success = false` and status 400. -/
theorem free_duplicate_registration_returns_error_400 :
    eventRegisterFree "b@x.com" (some "e1") 4 dbReg
      = (errResp 400 "You are already registered", dbReg)
    ∧ (errResp 400 "You are already registered").success = false
    ∧ (errResp 400 "You are already registered").status = 400 := by decide

/-- Claim C4 (amended): for a free event with room left, the first
registration succeeds; the second attempt by the same (event, email) pair
returns the duplicate outcome as an HTTP 400 error
(`'You are already registered'`) and changes nothing, so across both calls
exactly one Event Registration exists and the attendee count rose by
exactly 1. -/
theorem free_event_second_registration_duplicate_outcome
    (db : DB) (event : EventDoc) (email : String) (n1 n2 : Nat)
    (hid : event._id ≠ "")
    (hfind : findOne (fun e => e._id == event._id) db.events = some event)
    (hfree : event.eventType.map toLowerCase = some "free")
    (hreg : findOne (fun r => r.eventId == event._id && r.email == email)
        db.eventRegisters = none)
    (hcap : jsNumOr event.attendees 0 < jsNumOr event.maxAttendees 999999) :
    ((eventRegisterFree email (some event._id) n1 db).1.status = 200
      ∧ (eventRegisterFree email (some event._id) n1 db).1.success = true)
    ∧ eventRegisterFree email (some event._id) n2
        (eventRegisterFree email (some event._id) n1 db).2
      = (errResp 400 "You are already registered",
         (eventRegisterFree email (some event._id) n1 db).2)
    ∧ (eventRegisterFree email (some event._id) n1 db).2.eventRegisters.countP
        (fun r => r.eventId == event._id && r.email == email) = 1
    ∧ findOne (fun e => e._id == event._id)
        (eventRegisterFree email (some event._id) n1 db).2.events
      = some { event with attendees := some (event.attendees.getD 0 + 1) } := by
  have hnotfull : ¬ jsNumOr event.attendees 0 ≥ jsNumOr event.maxAttendees 999999 := by
    omega
  have h1 : eventRegisterFree email (some event._id) n1 db
      = (⟨200, true, none, some "Successfully registered for free event", none⟩,
         { db with
             eventRegisters := insertOne
               { eventId := event._id, email := email, paymentStatus := some "free",
                 transactionId := none, amount := none, currency := none,
                 paidAt := none, registeredAt := n1,
                 eventTitle := some (event.title.getD ""),
                 clubName := some (event.clubName.getD "") } db.eventRegisters
             events := updateOne (fun e => e._id == event._id)
               (fun e => { e with attendees := some (e.attendees.getD 0 + 1) })
               db.events }) := by
    simp [eventRegisterFree, truthyStr, hid, hfind, hfree, hreg, hnotfull]
  have h2find : List.find? (fun e => e._id == event._id)
      (updateOne (fun e => e._id == event._id)
        (fun e => { e with attendees := some (e.attendees.getD 0 + 1) }) db.events)
      = some { event with attendees := some (event.attendees.getD 0 + 1) } := by
    rw [find?_updateOne (fun e => e._id == event._id)
      (fun e => { e with attendees := some (e.attendees.getD 0 + 1) }) db.events
      (fun x => rfl)]
    have hfind' : List.find? (fun e => e._id == event._id) db.events = some event := hfind
    rw [hfind']
    rfl
  have hc0 : db.eventRegisters.countP
      (fun r => r.eventId == event._id && r.email == email) = 0 :=
    List.countP_eq_zero.mpr (fun a ha => List.find?_eq_none.mp hreg a ha)
  refine ⟨?_, ?_, ?_, ?_⟩
  · rw [h1]
    exact ⟨rfl, rfl⟩
  · rw [h1]
    have hreg' : List.find? (fun r => r.eventId == event._id && r.email == email)
        db.eventRegisters = none := hreg
    simp [eventRegisterFree, truthyStr, hid, findOne, h2find, hfree, insertOne,
      List.find?_append, hreg']
  · rw [h1]
    simp [insertOne, List.countP_append, hc0]
  · rw [h1]
    exact h2find

/-- Witness for the amended C4: a fresh registrant on the free event `e1`,
registered twice. -/
theorem free_event_second_registration_duplicate_outcome_witness :
    ((eventRegisterFree "d@x.com" (some eventFree._id) 11 dbReg).1.status = 200
      ∧ (eventRegisterFree "d@x.com" (some eventFree._id) 11 dbReg).1.success = true)
    ∧ eventRegisterFree "d@x.com" (some eventFree._id) 12
        (eventRegisterFree "d@x.com" (some eventFree._id) 11 dbReg).2
      = (errResp 400 "You are already registered",
         (eventRegisterFree "d@x.com" (some eventFree._id) 11 dbReg).2)
    ∧ (eventRegisterFree "d@x.com" (some eventFree._id) 11 dbReg).2.eventRegisters.countP
        (fun r => r.eventId == eventFree._id && r.email == "d@x.com") = 1
    ∧ findOne (fun e => e._id == eventFree._id)
        (eventRegisterFree "d@x.com" (some eventFree._id) 11 dbReg).2.events
      = some { eventFree with attendees := some (eventFree.attendees.getD 0 + 1) } :=
  free_event_second_registration_duplicate_outcome dbReg eventFree "d@x.com" 11 12
    (by decide) (by decide) (by decide) (by decide) (by decide)

/-- Claim C7: DELETE /clubs/:id returns Forbidden and leaves the store
untouched whenever the verified requester email differs (exact,
case-sensitive string comparison) from the club's creator email; with a
matching email the deletion succeeds and the club (its id unique in the
store) is no longer findable. -/
theorem deleteClub_owner_only
    (db : DB) (id email : String) (club : Club)
    (hfind : findOne (fun c => c._id == id) db.clubs = some club) :
    (club.createremail ≠ email →
      deleteClub email id db
        = (errResp 403 "You can only delete your own clubs", db))
    ∧ (club.createremail = email →
        db.clubs.countP (fun c => c._id == id) ≤ 1 →
        (deleteClub email id db).1
          = ⟨200, true, none, some "Club deleted successfully", none⟩
        ∧ findOne (fun c => c._id == id) (deleteClub email id db).2.clubs = none) := by
  constructor
  · intro hne
    simp [deleteClub, hfind, hne]
  · intro heq huniq
    have hfind' : List.find? (fun c => c._id == id) db.clubs = some club := hfind
    have hdel : (deleteOne (fun c => c._id == id) db.clubs).1 = 1 :=
      deleteOne_fst_of_find? _ _ _ hfind
    have hnone := find?_deleteOne_none (fun c => c._id == id) db.clubs huniq
    simp [deleteClub, hfind', heq, hdel, findOne]
    intro x hx
    simpa using List.find?_eq_none.mp hnone x hx

/-- Witness for C7: a stranger's deletion of club `c1` is forbidden, the
creator's deletion succeeds and makes the club unfindable. -/
theorem deleteClub_owner_only_witness :
    deleteClub "b@x.com" "c1" db0
      = (errResp 403 "You can only delete your own clubs", db0)
    ∧ ((deleteClub "a@x.com" "c1" db0).1
        = ⟨200, true, none, some "Club deleted successfully", none⟩
      ∧ findOne (fun c => c._id == "c1") (deleteClub "a@x.com" "c1" db0).2.clubs
        = none) :=
  ⟨(deleteClub_owner_only db0 "c1" "b@x.com" club1 (by decide)).1 (by decide),
   (deleteClub_owner_only db0 "c1" "a@x.com" club1 (by decide)).2 (by decide)
     (by decide)⟩

end ClubSphere
